import Mathlib

/-!
Shallow embedding of the conversation-window controller in `src/openai.py`
(class `OpenAIChatbot`).

Modelling conventions:
- A Python message dict `{"role": r, "content": c}` or
  `{"role": r, "content": c, "name": n}` becomes a `Message` record; `name`
  is `none` when the key is absent.
- The external tokenizer (`tiktoken.Tokenizer`) is a parameter: a pair of a
  token-counting function and a tokenizing function (the Python code uses
  `tokenizer.count_tokens` and `tokenizer.tokenize`, joining the tokens
  back with `"".join(token.string ...)`, so a token is represented by its
  string).
- Python integers are `Int` (token budgets can go negative via
  `max_token_size - total_tokens`); token counts are `Nat` coerced to `Int`.
- The Python slice `l[:k]` (with possibly negative `k`, as happens in the
  truncation branch) is `pyTake`.
- The `while` loop of `update_conversation_history` (lines 131-145) is
  `evictLoop`, recursing on the strictly decreasing history length.
- Callback invocations are not side effects but counted in the result
  (`trimCalls`), together with the number of evicted messages (`pops`).
- The completion API (`openai.ChatCompletion.create`) is an oracle
  `Nat → RespMessage` consumed at an increasing index, and Python
  exceptions are the `Except PyExc` monad.
-/

/-- One message dict of the transcript. `name` is `none` when the `"name"`
key is absent. -/
structure Message where
  role : String
  content : String
  name : Option String
deriving Repr, DecidableEq

/-- The external tokenizer capability consumed by the controller:
`count_tokens` and `tokenize` (a token is identified with its `.string`). -/
structure Tokenizer where
  countTokens : String → Nat
  tokenize : String → List String

/-- `count_tokens(self, messages)` (src/openai.py lines 88-99): sum of the
tokenizer counts of each message's content. -/
def count_tokens (tok : Tokenizer) (messages : List Message) : Nat :=
  (messages.map (fun m => tok.countTokens m.content)).sum

/-- Python slice `l[:k]` for an `Int` bound `k`: a negative `k` counts from
the end (`l[:-j]` drops the last `j` elements, empty when `j ≥ len`). -/
def pyTake {α : Type} (l : List α) (k : Int) : List α :=
  if k < 0 then l.take (((l.length : Int) + k).toNat) else l.take k.toNat

/-- The state of an `OpenAIChatbot` instance that the claims touch.
`trim_message_callback` records whether the optional callback was
configured (its truthiness). -/
structure Chatbot where
  initial_messages : List Message
  conversation_history : List Message
  max_token_size : Int
  response_token_size : Int
  trim_message_callback : Bool
deriving Repr, DecidableEq

/-- Message construction at the top of `update_conversation_history`
(lines 112-117): a `"name"` key is attached only for role `"function"`. -/
def mkNewMessage (role content : String) (name : Option String) : Message :=
  if role = "function" then ⟨role, content, name⟩ else ⟨role, content, none⟩

/-- Result of the eviction `while` loop: final history, final
`available_tokens`, the `callback_invoked` flag, and how many messages were
popped. -/
structure EvictResult where
  history : List Message
  available : Int
  invoked : Bool
  pops : Nat
deriving Repr, DecidableEq

/-- The `while available_tokens < self.response_token_size` loop of
`update_conversation_history` (src/openai.py lines 131-145): pop the
message at index `len(initial_messages) + 1` while the inner length guard
holds, recomputing `total_tokens`/`available_tokens` after each pop and
latching `callback_invoked` when a callback is configured. -/
def evictLoop (tok : Tokenizer) (maxTok res : Int) (p : Nat) (cb : Bool)
    (history : List Message) (available : Int) (invoked : Bool) : EvictResult :=
  if available < res then
    if h : p + 1 < history.length then
      let history' := history.eraseIdx (p + 1)
      let available' := maxTok - (count_tokens tok history' : Int)
      let invoked' := invoked || cb
      let r := evictLoop tok maxTok res p cb history' available' invoked'
      ⟨r.history, r.available, r.invoked, r.pops + 1⟩
    else
      ⟨history, available, invoked, 0⟩
  else
    ⟨history, available, invoked, 0⟩
termination_by history.length
decreasing_by
  simp only [history', List.length_eraseIdx_of_lt h]
  omega

/-- Result of `update_conversation_history`: the new object state, the
returned `available_tokens`, the number of `trim_message_callback`
invocations during the call, and the number of evicted messages. -/
structure UpdateResult where
  bot : Chatbot
  available : Int
  trimCalls : Nat
  pops : Nat
deriving Repr, DecidableEq

/-- Step 1 of `update_conversation_history` (src/openai.py lines 112-119):
append the new message when `message_content is not None`. -/
def appendMessage (history : List Message) (message_content : Option String)
    (role : String) (name : Option String) : List Message :=
  match message_content with
  | some c => history ++ [mkNewMessage role c name]
  | none => history

/-- `update_conversation_history(self, message_content, role="user",
name=None)` (src/openai.py lines 101-179).

Branch structure of the source, kept verbatim:
1. append the new message when `message_content is not None`;
2. compute `total_tokens` / `available_tokens`;
3. `if len(history) > len(initial) + 1`: run the eviction loop, then call
   the trim callback once iff it is configured and the loop latched
   `callback_invoked`;
4. `elif len(history) == len(initial) + 1 and available < reserve`:
   truncate the last message to `text_tokens[:available - reserve]`
   (a negative Python slice), set `available = reserve`, fire the callback;
5. return `available`. -/
def update_conversation_history (tok : Tokenizer) (bot : Chatbot)
    (message_content : Option String) (role : String := "user")
    (name : Option String := none) : UpdateResult :=
  let history0 := appendMessage bot.conversation_history message_content role name
  let total_tokens : Nat := count_tokens tok history0
  let available_tokens : Int := bot.max_token_size - total_tokens
  let p := bot.initial_messages.length
  if p + 1 < history0.length then
    let r := evictLoop tok bot.max_token_size bot.response_token_size p
      bot.trim_message_callback history0 available_tokens false
    let trims := if bot.trim_message_callback && r.invoked then 1 else 0
    ⟨{ bot with conversation_history := r.history }, r.available, trims, r.pops⟩
  else if history0.length = p + 1 ∧ available_tokens < bot.response_token_size then
    match history0.getLast? with
    | none => ⟨{ bot with conversation_history := history0 }, available_tokens, 0, 0⟩
    | some last =>
      let text_tokens := tok.tokenize last.content
      let available_tokens_for_message := available_tokens - bot.response_token_size
      if (text_tokens.length : Int) > available_tokens_for_message then
        let user_message := String.join (pyTake text_tokens available_tokens_for_message)
        let history1 := history0.dropLast ++ [{ last with content := user_message }]
        ⟨{ bot with conversation_history := history1 }, bot.response_token_size,
          if bot.trim_message_callback then 1 else 0, 0⟩
      else
        ⟨{ bot with conversation_history := history0 }, available_tokens, 0, 0⟩
  else
    ⟨{ bot with conversation_history := history0 }, available_tokens, 0, 0⟩

/-- A `function_call` object on a completion reply. -/
structure FuncCall where
  name : String
  arguments : String
deriving Repr, DecidableEq

/-- `response.choices[0].message` as consumed by `generate_response`:
an optional `content` and an optional `function_call`. -/
structure RespMessage where
  content : Option String
  function_call : Option FuncCall
deriving Repr, DecidableEq

/-- The Python exceptions the modelled paths can raise. `recursionError`
stands for the interpreter recursion limit on the unbounded
`generate_response` recursion. -/
inductive PyExc
  | attributeError (attr : String)
  | typeError (detail : String)
  | indexError
  | recursionError
deriving Repr, DecidableEq

/-- The collaborators of `generate_response`: the tokenizer, the function
registry (`functions_callable`, used as a name-keyed mapping), the
completion-service oracle, and the state of the `error_callback` attribute
on the object (`none` = attribute absent, `some b` = present with
truthiness `b`). A registered handler models
`functions_callable[name](**json.loads(arguments))`: it consumes the raw
argument text and either returns a result or raises (`Except.error` with
the exception detail). -/
structure GenEnv where
  tok : Tokenizer
  functions_callable : List (String × (String → Except String String))
  oracle : Nat → RespMessage
  error_callback_attr : Option Bool

/-- Mutable state threaded through `generate_response`: the chatbot object,
the oracle cursor, and the observable events (continuation requests issued,
error-callback invocations). -/
structure GenState where
  bot : Chatbot
  idx : Nat
  continuations : Nat
  errorCalls : List (String × String)
deriving Repr, DecidableEq

/-- `name in functions_callable` / `functions_callable[name]` on a
name-keyed mapping. -/
def lookupFunc : List (String × (String → Except String String)) → String →
    Option (String → Except String String)
  | [], _ => none
  | (k, f) :: rest, n => if k = n then some f else lookupFunc rest n

/-- The synthetic instruction of the error-recovery path (src/openai.py
line 226); quote characters of the original literal elided. -/
def apologyPrompt (funcName : String) : String :=
  "An error occurred when trying to execute the function " ++ funcName ++
    ". Please tell the user and apologize. (Do not ask to troubleshoot)"

/-- Lines 232-246 of `generate_response`: read
`response.choices[0].message.get("content")` and run the
terminal-punctuation / continuation logic. `reply[-1]` raises `TypeError`
on `None` and `IndexError` on the empty string. -/
def punctuationBlock (env : GenEnv) (rmsg : RespMessage) (st : GenState) :
    Except PyExc (String × GenState) :=
  match rmsg.content with
  | none => .error (.typeError "NoneType is not subscriptable")
  | some reply =>
    match reply.toList.getLast? with
    | none => .error .indexError
    | some lastChar =>
      if ¬(lastChar = '.' ∨ lastChar = '!' ∨ lastChar = '?') then
        let u := update_conversation_history env.tok st.bot (some reply) "assistant" none
        if u.available > 0 then
          let crmsg := env.oracle st.idx
          let st' : GenState :=
            { st with bot := u.bot, idx := st.idx + 1,
                      continuations := st.continuations + 1 }
          match crmsg.content with
          | none => .error (.typeError "can only concatenate str to str")
          | some c => .ok (reply ++ c, st')
        else
          .ok (reply, { st with bot := u.bot })
      else
        .ok (reply, st)

/-- `generate_response(self)` (src/openai.py lines 181-246), with a fuel
bound standing for the Python recursion limit.  One oracle message is
consumed per `create_response` call.  The function-call branch: look the
name up in the registry; on handler success append a function message via
`update_conversation_history` and recurse; on handler failure evaluate
`if self.error_callback` (an `AttributeError` when the attribute is
absent), invoke the callback when truthy, `rollback()` (pop the last
message), and recurse through `respond` on the apology prompt.  An
unregistered name only prints and falls through to the text path. -/
def generate_response (env : GenEnv) : Nat → GenState → Except PyExc (String × GenState)
  | 0, _ => .error .recursionError
  | fuel + 1, st0 =>
    let rmsg := env.oracle st0.idx
    let st := { st0 with idx := st0.idx + 1 }
    match rmsg.function_call with
    | some fc =>
      match lookupFunc env.functions_callable fc.name with
      | some handler =>
        match handler fc.arguments with
        | .ok func_result =>
          let u := update_conversation_history env.tok st.bot (some func_result)
            "function" (some fc.name)
          generate_response env fuel { st with bot := u.bot }
        | .error detail =>
          match env.error_callback_attr with
          | none => .error (.attributeError "error_callback")
          | some truthy =>
            let st1 :=
              if truthy then
                { st with errorCalls := st.errorCalls ++ [(fc.name, detail)] }
              else st
            let st2 : GenState :=
              { st1 with bot :=
                { st1.bot with conversation_history :=
                    st1.bot.conversation_history.dropLast } }
            let u := update_conversation_history env.tok st2.bot
              (some (apologyPrompt fc.name)) "user" none
            generate_response env fuel { st2 with bot := u.bot }
      | none => punctuationBlock env rmsg st
    | none => punctuationBlock env rmsg st

/-- `respond(self, user_message)` (src/openai.py lines 261-275). -/
def respond (env : GenEnv) (fuel : Nat) (st : GenState) (user_message : String) :
    Except PyExc (String × GenState) :=
  let u := update_conversation_history env.tok st.bot (some user_message) "user" none
  generate_response env fuel { st with bot := u.bot }

/-- The attribute names `__init__` assigns on `self`, in source order
(src/openai.py lines 54-75). -/
def initAssignedAttrs : List String :=
  ["model", "max_token_size", "trim_message_callback", "response_token_size",
   "functions", "functions_callable", "initial_messages", "conversation_history"]

/-- The state of `self.error_callback` after `__init__`: the constructor
accepts an `error_callback` argument but never assigns the attribute, so it
is absent. -/
def initErrorCallbackAttr : Option Bool := none

/-- A concrete tokenizer for evaluating the model: every character is one
token. -/
def charTokenizer : Tokenizer where
  countTokens s := s.length
  tokenize s := s.toList.map (fun c => String.mk [c])

/-! ### Lemmas about the eviction loop -/

theorem evictLoop_step {tok : Tokenizer} {maxTok res : Int} {p : Nat} {cb : Bool}
    {history : List Message} {available : Int} {invoked : Bool}
    (hav : available < res) (hlen : p + 1 < history.length) :
    evictLoop tok maxTok res p cb history available invoked =
      { (evictLoop tok maxTok res p cb (history.eraseIdx (p + 1))
          (maxTok - (count_tokens tok (history.eraseIdx (p + 1)) : Int))
          (invoked || cb)) with
        pops := (evictLoop tok maxTok res p cb (history.eraseIdx (p + 1))
          (maxTok - (count_tokens tok (history.eraseIdx (p + 1)) : Int))
          (invoked || cb)).pops + 1 } := by
  rw [evictLoop]
  simp only [hav, if_true, dif_pos hlen]

theorem evictLoop_stop_len {tok : Tokenizer} {maxTok res : Int} {p : Nat} {cb : Bool}
    {history : List Message} {available : Int} {invoked : Bool}
    (hav : available < res) (hlen : ¬ p + 1 < history.length) :
    evictLoop tok maxTok res p cb history available invoked =
      ⟨history, available, invoked, 0⟩ := by
  rw [evictLoop]
  simp only [hav, if_true, dif_neg hlen]

theorem evictLoop_stop_avail {tok : Tokenizer} {maxTok res : Int} {p : Nat} {cb : Bool}
    {history : List Message} {available : Int} {invoked : Bool}
    (hav : ¬ available < res) :
    evictLoop tok maxTok res p cb history available invoked =
      ⟨history, available, invoked, 0⟩ := by
  rw [evictLoop]
  simp only [hav, if_false]

/-- Core invariants of the eviction loop: each pop removes exactly one
message, the length never drops below `p + 1` (and never below its initial
value when that is smaller), a run with no pops changes nothing, and any
run with at least one pop has latched `invoked || cb`. -/
theorem evictLoop_spec (tok : Tokenizer) (maxTok res : Int) (p : Nat) (cb : Bool) :
    ∀ (n : Nat) (history : List Message) (available : Int) (invoked : Bool),
      history.length = n →
      (evictLoop tok maxTok res p cb history available invoked).history.length
          + (evictLoop tok maxTok res p cb history available invoked).pops
        = history.length ∧
      min (p + 1) history.length
        ≤ (evictLoop tok maxTok res p cb history available invoked).history.length ∧
      ((evictLoop tok maxTok res p cb history available invoked).pops = 0 →
        evictLoop tok maxTok res p cb history available invoked
          = ⟨history, available, invoked, 0⟩) ∧
      (0 < (evictLoop tok maxTok res p cb history available invoked).pops →
        (evictLoop tok maxTok res p cb history available invoked).invoked
          = (invoked || cb)) := by
  intro n
  induction n using Nat.strong_induction_on with
  | _ n ihn =>
    intro history available invoked hn
    by_cases hav : available < res
    · by_cases hlen : p + 1 < history.length
      · rw [evictLoop_step hav hlen]
        have hlen' : (history.eraseIdx (p + 1)).length = history.length - 1 :=
          List.length_eraseIdx_of_lt hlen
        obtain ⟨ih1, ih2, ih3, ih4⟩ := ihn (history.length - 1) (by omega)
          (history.eraseIdx (p + 1))
          (maxTok - (count_tokens tok (history.eraseIdx (p + 1)) : Int))
          (invoked || cb) hlen'
        refine ⟨?_, ?_, ?_, ?_⟩
        · simp only [EvictResult.mk.injEq]
          omega
        · rw [min_eq_left (Nat.le_of_lt hlen)]
          rw [min_eq_left (by omega : p + 1 ≤ (history.eraseIdx (p + 1)).length)] at ih2
          simpa using ih2
        · intro hp
          simp at hp
        · intro _
          by_cases hpops : 0 < (evictLoop tok maxTok res p cb
              (history.eraseIdx (p + 1))
              (maxTok - (count_tokens tok (history.eraseIdx (p + 1)) : Int))
              (invoked || cb)).pops
          · have := ih4 hpops
            simp only [this, Bool.or_assoc, Bool.or_self]
          · have hz : (evictLoop tok maxTok res p cb
                (history.eraseIdx (p + 1))
                (maxTok - (count_tokens tok (history.eraseIdx (p + 1)) : Int))
                (invoked || cb)).pops = 0 := by omega
            rw [ih3 hz]
      · rw [evictLoop_stop_len hav hlen]
        refine ⟨by simp, by simp, fun _ => rfl, by simp⟩
    · rw [evictLoop_stop_avail hav]
      refine ⟨by simp, by simp, fun _ => rfl, by simp⟩

/-- The eviction loop only erases at index `p + 1`, so a prefix of length
`p` (and in fact `p + 1`) survives untouched: a history of the shape
`primer ++ active` keeps `primer` as its prefix. -/
theorem evictLoop_primerInvariant (tok : Tokenizer) (maxTok res : Int) (cb : Bool)
    (primer : List Message) :
    ∀ (n : Nat) (act : List Message) (available : Int) (invoked : Bool),
      act.length = n →
      ∃ act', (evictLoop tok maxTok res primer.length cb (primer ++ act)
        available invoked).history = primer ++ act' := by
  intro n
  induction n using Nat.strong_induction_on with
  | _ n ihn =>
    intro act available invoked hn
    by_cases hav : available < res
    · by_cases hlen : primer.length + 1 < (primer ++ act).length
      · rw [evictLoop_step hav hlen]
        have herase : (primer ++ act).eraseIdx (primer.length + 1)
            = primer ++ act.eraseIdx 1 := by
          rw [List.eraseIdx_append_of_length_le (by omega), Nat.add_sub_cancel_left]
        have hlenact : 1 < act.length := by
          rw [List.length_append] at hlen
          omega
        have hlen' : (act.eraseIdx 1).length = act.length - 1 :=
          List.length_eraseIdx_of_lt (by omega)
        obtain ⟨act', hact'⟩ := ihn (act.length - 1) (by omega) (act.eraseIdx 1)
          (maxTok - (count_tokens tok ((primer ++ act).eraseIdx (primer.length + 1)) : Int))
          (invoked || cb) hlen'
        rw [herase] at hact' ⊢
        exact ⟨act', hact'⟩
      · rw [evictLoop_stop_len hav hlen]
        exact ⟨act, rfl⟩
    · rw [evictLoop_stop_avail hav]
      exact ⟨act, rfl⟩

/-- Master branch analysis of `update_conversation_history`: the primer
list is untouched, message count is only reduced by evictions, the trim
callback fires at most once (exactly once when a configured callback saw at
least one eviction), a call on a transcript that already fits the budget
changes nothing, and a `primer ++ active` shape is preserved. -/
theorem update_master (tok : Tokenizer) (bot : Chatbot) (mc : Option String)
    (role : String) (name : Option String) (u : UpdateResult)
    (hu : u = update_conversation_history tok bot mc role name) :
    u.bot.initial_messages = bot.initial_messages
    ∧ u.bot.conversation_history.length + u.pops
        = (appendMessage bot.conversation_history mc role name).length
    ∧ u.trimCalls ≤ 1
    ∧ (bot.trim_message_callback = true → 1 ≤ u.pops → u.trimCalls = 1)
    ∧ (bot.response_token_size
          ≤ bot.max_token_size
            - (count_tokens tok (appendMessage bot.conversation_history mc role name) : Int) →
        u.bot.conversation_history = appendMessage bot.conversation_history mc role name
        ∧ u.available = bot.max_token_size
            - (count_tokens tok (appendMessage bot.conversation_history mc role name) : Int)
        ∧ u.pops = 0 ∧ u.trimCalls = 0)
    ∧ (∀ act0, appendMessage bot.conversation_history mc role name
          = bot.initial_messages ++ act0 →
        ∃ act', u.bot.conversation_history = bot.initial_messages ++ act') := by
  subst hu
  simp only [update_conversation_history]
  by_cases h1 : bot.initial_messages.length + 1
      < (appendMessage bot.conversation_history mc role name).length
  · simp only [if_pos h1]
    obtain ⟨s1, s2, s3, s4⟩ := evictLoop_spec tok bot.max_token_size
      bot.response_token_size bot.initial_messages.length bot.trim_message_callback
      (appendMessage bot.conversation_history mc role name).length
      (appendMessage bot.conversation_history mc role name)
      (bot.max_token_size
        - (count_tokens tok (appendMessage bot.conversation_history mc role name) : Int))
      false rfl
    refine ⟨by trivial, by simpa using s1, ?_, ?_, ?_, ?_⟩
    · split <;> omega
    · intro hcb hpops
      have hinv := s4 (by omega)
      simp only [hcb, Bool.false_or] at hinv
      simp [hinv, hcb]
    · intro hfit
      have hav : ¬ (bot.max_token_size
          - (count_tokens tok (appendMessage bot.conversation_history mc role name) : Int)
            < bot.response_token_size) := by omega
      rw [evictLoop_stop_avail hav]
      refine ⟨by trivial, by trivial, by trivial, by simp⟩
    · intro act0 heq
      rw [heq]
      obtain ⟨act', hact'⟩ := evictLoop_primerInvariant tok bot.max_token_size
        bot.response_token_size bot.trim_message_callback bot.initial_messages
        act0.length act0
        (bot.max_token_size
          - (count_tokens tok (appendMessage bot.conversation_history mc role name) : Int))
        false rfl
      rw [heq] at hact'
      exact ⟨act', hact'⟩
  · simp only [if_neg h1]
    by_cases h2 : (appendMessage bot.conversation_history mc role name).length
        = bot.initial_messages.length + 1
      ∧ bot.max_token_size
          - (count_tokens tok (appendMessage bot.conversation_history mc role name) : Int)
        < bot.response_token_size
    · simp only [if_pos h2]
      rcases hlast : (appendMessage bot.conversation_history mc role name).getLast? with _ | last
      · dsimp only
        refine ⟨by trivial, by simp, by omega, ?_, ?_, ?_⟩
        · intro _ hpops
          exact absurd hpops (by omega)
        · intro hfit
          exact absurd h2.2 (by omega)
        · intro act0 heq
          exact ⟨act0, heq⟩
      · dsimp only
        by_cases h3 : ((tok.tokenize last.content).length : Int)
            > bot.max_token_size
              - (count_tokens tok (appendMessage bot.conversation_history mc role name) : Int)
              - bot.response_token_size
        · simp only [if_pos h3]
          refine ⟨by trivial, ?_, by split <;> omega, ?_, ?_, ?_⟩
          · have hlen : (appendMessage bot.conversation_history mc role name).length
                = bot.initial_messages.length + 1 := h2.1
            simp only [List.length_append, List.length_dropLast, List.length_cons,
              List.length_nil]
            omega
          · intro _ hpops
            exact absurd hpops (by omega)
          · intro hfit
            exact absurd h2.2 (by omega)
          · intro act0 heq
            have hact0len : act0.length = 1 := by
              have hl := h2.1
              rw [heq, List.length_append] at hl
              omega
            obtain ⟨m, hm⟩ := List.length_eq_one.mp hact0len
            subst hm
            rw [heq, List.dropLast_concat]
            exact ⟨_, rfl⟩
        · simp only [if_neg h3]
          refine ⟨by trivial, by simp, by omega, ?_, ?_, ?_⟩
          · intro _ hpops
            exact absurd hpops (by omega)
          · intro hfit
            exact absurd h2.2 (by omega)
          · intro act0 heq
            exact ⟨act0, heq⟩
    · simp only [if_neg h2]
      refine ⟨by trivial, by simp, by omega, ?_, ?_, ?_⟩
      · intro _ hpops
        exact absurd hpops (by omega)
      · intro _
        exact ⟨by trivial, by trivial, by trivial, by trivial⟩
      · intro act0 heq
        exact ⟨act0, heq⟩

/-! ### Simp characterisations of the append step -/

theorem appendMessage_none (history : List Message) (role : String)
    (name : Option String) : appendMessage history none role name = history := rfl

theorem appendMessage_some (history : List Message) (c : String) (role : String)
    (name : Option String) :
    appendMessage history (some c) role name = history ++ [mkNewMessage role c name] := rfl

/-! ### Concrete scenarios (all token counts via `charTokenizer`) -/

/-- A one-token primer message. -/
def sysMsg : Message := ⟨"system", "s", none⟩

/-- Active messages A, B, C of four tokens each. -/
def msgA : Message := ⟨"user", "AAAA", none⟩

def msgB : Message := ⟨"user", "BBBB", none⟩

def msgC : Message := ⟨"user", "CCCC", none⟩

/-- Budget 10 with reserve 4 over a 1-token primer: each of A, B, C fits on
its own (5 + 4 ≤ 10), the three together (13 tokens) do not. -/
def evictionBot : Chatbot := ⟨[sysMsg], [sysMsg, msgA, msgB, msgC], 10, 4, true⟩

/-- C1. The spec says the trimming loop always removes the oldest active
message, at index `len(primer)`.  The code pops index
`len(initial_messages) + 1` (src/openai.py line 134-136), i.e. the second
active message: on active messages A, B, C it first erases B, then C, and
returns with the oldest message A still present. -/
theorem eviction_pops_second_active_message :
    (update_conversation_history charTokenizer evictionBot none "user" none).bot.conversation_history
        = [sysMsg, msgA]
    ∧ (update_conversation_history charTokenizer evictionBot none "user" none).pops = 2
    ∧ evictionBot.conversation_history.eraseIdx (evictionBot.initial_messages.length + 1)
        = [sysMsg, msgA, msgC] := by
  refine ⟨?_, ?_, ?_⟩ <;>
    simp [update_conversation_history, evictLoop, count_tokens, charTokenizer,
      evictionBot, sysMsg, msgA, msgB, msgC, appendMessage] <;> decide

/-- A 20-token active message followed by a 2-token one, over a budget of
10 with reserve 5: eviction pops the 2-token message and stops with the
20-token message as the only active message, untruncated. -/
def hugeMsg : Message := ⟨"user", "aaaaaaaaaaaaaaaaaaaa", none⟩

def tinyMsg : Message := ⟨"user", "hi", none⟩

def overflowBot : Chatbot := ⟨[sysMsg], [sysMsg, hugeMsg, tinyMsg], 10, 5, true⟩

/-- C2. After a trimming `update` the budget invariant can fail: eviction
reduces the active segment to the single message `hugeMsg`, the `elif`
structure of the source skips the truncation branch in the same call, and
the call returns with `tokens_used + response_reserve > max_token_size`
while the surviving message is byte-identical (not truncated). -/
theorem eviction_to_single_message_can_exceed_budget :
    (update_conversation_history charTokenizer overflowBot none "user" none).pops = 1
    ∧ (update_conversation_history charTokenizer overflowBot none "user" none).trimCalls = 1
    ∧ (update_conversation_history charTokenizer overflowBot none "user" none).bot.conversation_history
        = [sysMsg, hugeMsg]
    ∧ overflowBot.max_token_size
      < (count_tokens charTokenizer
            (update_conversation_history charTokenizer overflowBot none "user" none).bot.conversation_history : Int)
          + overflowBot.response_token_size := by
  refine ⟨?_, ?_, ?_, ?_⟩ <;>
    simp [update_conversation_history, evictLoop, count_tokens, charTokenizer,
      overflowBot, sysMsg, hugeMsg, tinyMsg, appendMessage] <;> decide

/-- Two 8-token active messages over a budget of 10 with reserve 5 and an
empty primer: `update(None)` still evicts. -/
def noneCallBot : Chatbot :=
  ⟨[], [⟨"user", "aaaaaaaa", none⟩, ⟨"user", "bbbbbbbb", none⟩], 10, 5, false⟩

/-- C4 counterexample: `update(None)` on an over-budget transcript evicts a
message, so the transcript length changes. -/
theorem updateNone_changes_length_cex :
    (update_conversation_history charTokenizer noneCallBot none "user" none).bot.conversation_history.length
      ≠ noneCallBot.conversation_history.length := by
  simp [update_conversation_history, evictLoop, count_tokens, charTokenizer,
    noneCallBot, appendMessage]
  decide

/-- C4 amended: `update(None)` appends nothing — the transcript length
never increases, and when the transcript already fits the budget
(`response_reserve ≤ max_token_size - tokens_used`) nothing changes at all
and the call only recomputes and returns `available_tokens`.  (Trimming can
still evict messages when the transcript is over budget.) -/
theorem updateNone_never_appends (tok : Tokenizer) (bot : Chatbot)
    (role : String) (name : Option String) :
    (update_conversation_history tok bot none role name).bot.conversation_history.length
      ≤ bot.conversation_history.length
    ∧ (bot.response_token_size
          ≤ bot.max_token_size - (count_tokens tok bot.conversation_history : Int) →
        (update_conversation_history tok bot none role name).bot.conversation_history
            = bot.conversation_history
        ∧ (update_conversation_history tok bot none role name).available
            = bot.max_token_size - (count_tokens tok bot.conversation_history : Int)) := by
  obtain ⟨m1, m2, m3, m4, m5, m6⟩ :=
    update_master tok bot none role name _ rfl
  rw [appendMessage_none] at m2 m5
  exact ⟨by omega, fun hfit => ⟨(m5 hfit).1, (m5 hfit).2.1⟩⟩

/-- A transcript that fits its budget: one 2-token active message, budget
100, reserve 5. -/
def fitsBot : Chatbot := ⟨[sysMsg], [sysMsg, tinyMsg], 100, 5, true⟩

/-- Witness for the amended C4 at a concrete in-budget state. -/
theorem updateNone_never_appends_witness :
    (update_conversation_history charTokenizer fitsBot none "user" none).bot.conversation_history.length
      ≤ fitsBot.conversation_history.length
    ∧ (update_conversation_history charTokenizer fitsBot none "user" none).bot.conversation_history
        = fitsBot.conversation_history
    ∧ (update_conversation_history charTokenizer fitsBot none "user" none).available
        = fitsBot.max_token_size - (count_tokens charTokenizer fitsBot.conversation_history : Int) :=
  ⟨(updateNone_never_appends charTokenizer fitsBot "user" none).1,
    (updateNone_never_appends charTokenizer fitsBot "user" none).2 (by decide)⟩

/-- A 10-token primer message. -/
def primerMsg10 : Message := ⟨"system", "aaaaaaaaaa", none⟩

/-- `max_token_size = 50`, `response_reserve = 20`, primer of 10 tokens. -/
def truncationBot : Chatbot := ⟨[primerMsg10], [primerMsg10], 50, 20, true⟩

/-- A 45-token message. -/
def msg45 : String := "bbbbbbbbbbbbbbbbbbbbbbbbbbbbbbbbbbbbbbbbbbbbb"

/-- C6. Appending a single 45-token active message to the 10-token primer
under budget 50 / reserve 20 truncates the message to its first 20 tokens:
the transcript totals 30 tokens and the call returns
`available_tokens = 20`. -/
theorem truncation_scenario_correct :
    (update_conversation_history charTokenizer truncationBot (some msg45) "user" none).available = 20
    ∧ count_tokens charTokenizer
        (update_conversation_history charTokenizer truncationBot (some msg45) "user" none).bot.conversation_history
      ≤ 30
    ∧ (update_conversation_history charTokenizer truncationBot (some msg45) "user" none).bot.conversation_history
      = [primerMsg10, ⟨"user", "bbbbbbbbbbbbbbbbbbbb", none⟩] := by
  refine ⟨?_, ?_, ?_⟩ <;>
    simp [update_conversation_history, evictLoop, count_tokens, charTokenizer,
      truncationBot, primerMsg10, msg45, appendMessage, mkNewMessage, pyTake] <;> decide

/-- C7. Every `update` call leaves the primer segment byte-identical and
positionally first: if the transcript is `primer ++ active`, the resulting
transcript is `primer ++ active'` for some `active'`, and the stored primer
list itself is untouched. -/
theorem update_preserves_primer (tok : Tokenizer) (bot : Chatbot)
    (mc : Option String) (role : String) (name : Option String)
    (active : List Message)
    (h : bot.conversation_history = bot.initial_messages ++ active) :
    (update_conversation_history tok bot mc role name).bot.initial_messages
      = bot.initial_messages
    ∧ ∃ active', (update_conversation_history tok bot mc role name).bot.conversation_history
        = bot.initial_messages ++ active' := by
  obtain ⟨m1, m2, m3, m4, m5, m6⟩ := update_master tok bot mc role name _ rfl
  refine ⟨m1, ?_⟩
  cases mc with
  | none => exact m6 active (by rw [appendMessage_none, h])
  | some c =>
    exact m6 (active ++ [mkNewMessage role c name])
      (by rw [appendMessage_some, h, List.append_assoc])

/-- Witness for C7 at a concrete transcript. -/
theorem update_preserves_primer_witness :
    (update_conversation_history charTokenizer evictionBot (some "hello") "user" none).bot.initial_messages
      = evictionBot.initial_messages
    ∧ ∃ active', (update_conversation_history charTokenizer evictionBot (some "hello") "user" none).bot.conversation_history
        = evictionBot.initial_messages ++ active' :=
  update_preserves_primer charTokenizer evictionBot (some "hello") "user" none
    [msgA, msgB, msgC] rfl

/-- C9. In any single `update` call the trim callback fires at most once,
and exactly once when it is configured and at least one eviction
happened. -/
theorem trim_callback_at_most_once (tok : Tokenizer) (bot : Chatbot)
    (mc : Option String) (role : String) (name : Option String) :
    (update_conversation_history tok bot mc role name).trimCalls ≤ 1
    ∧ (bot.trim_message_callback = true →
        1 ≤ (update_conversation_history tok bot mc role name).pops →
        (update_conversation_history tok bot mc role name).trimCalls = 1) := by
  obtain ⟨m1, m2, m3, m4, m5, m6⟩ := update_master tok bot mc role name _ rfl
  exact ⟨m3, m4⟩

/-- Witness for C9: a configured callback with two evictions in one call
still fires exactly once. -/
theorem trim_callback_at_most_once_witness :
    1 ≤ (update_conversation_history charTokenizer evictionBot none "user" none).pops
    ∧ (update_conversation_history charTokenizer evictionBot none "user" none).trimCalls ≤ 1
    ∧ (update_conversation_history charTokenizer evictionBot none "user" none).trimCalls = 1 := by
  have hpops : 1 ≤ (update_conversation_history charTokenizer evictionBot none "user" none).pops := by
    simp [update_conversation_history, evictLoop, count_tokens, charTokenizer,
      evictionBot, sysMsg, msgA, msgB, msgC, appendMessage]
    decide
  exact ⟨hpops, (trim_callback_at_most_once charTokenizer evictionBot none "user" none).1,
    (trim_callback_at_most_once charTokenizer evictionBot none "user" none).2 rfl hpops⟩

/-- C10. The eviction loop terminates because every iteration removes
exactly one message and the length is bounded below by
`len(initial_messages) + 1`; consequently `update_conversation_history` is
a total function whose result accounts for every removed message. -/
theorem evict_loop_terminates (tok : Tokenizer) (maxTok res : Int) (p : Nat)
    (cb : Bool) (history : List Message) (available : Int) (invoked : Bool)
    (bot : Chatbot) (mc : Option String) (role : String) (name : Option String) :
    (evictLoop tok maxTok res p cb history available invoked).history.length
        + (evictLoop tok maxTok res p cb history available invoked).pops
      = history.length
    ∧ min (p + 1) history.length
        ≤ (evictLoop tok maxTok res p cb history available invoked).history.length
    ∧ (update_conversation_history tok bot mc role name).bot.conversation_history.length
          + (update_conversation_history tok bot mc role name).pops
        = (appendMessage bot.conversation_history mc role name).length :=
  ⟨(evictLoop_spec tok maxTok res p cb history.length history available invoked rfl).1,
    (evictLoop_spec tok maxTok res p cb history.length history available invoked rfl).2.1,
    (update_master tok bot mc role name _ rfl).2.1⟩

/-- C8. In the terminal-punctuation branch: a reply whose last character is
not `.`, `!` or `?` is appended as an assistant message via
`update_conversation_history`; a continuation request is issued iff the
returned `available_tokens` is positive, the final result is the original
reply concatenated with the continuation reply, and in every case at most
one continuation is attempted. -/
theorem continuation_iff_available_positive (env : GenEnv) (rmsg : RespMessage)
    (st : GenState) (reply c : String) (lastChar : Char)
    (h1 : rmsg.content = some reply)
    (h2 : reply.toList.getLast? = some lastChar)
    (h3 : ¬(lastChar = '.' ∨ lastChar = '!' ∨ lastChar = '?'))
    (h4 : (env.oracle st.idx).content = some c) :
    (0 < (update_conversation_history env.tok st.bot (some reply) "assistant" none).available →
      punctuationBlock env rmsg st
        = .ok (reply ++ c,
            { st with
              bot := (update_conversation_history env.tok st.bot (some reply) "assistant" none).bot,
              idx := st.idx + 1,
              continuations := st.continuations + 1 }))
    ∧ ((update_conversation_history env.tok st.bot (some reply) "assistant" none).available ≤ 0 →
      punctuationBlock env rmsg st
        = .ok (reply,
            { st with
              bot := (update_conversation_history env.tok st.bot (some reply) "assistant" none).bot }))
    ∧ (∀ (rmsg2 : RespMessage) (st2 : GenState) (out : String) (stOut : GenState),
        punctuationBlock env rmsg2 st2 = .ok (out, stOut) →
        stOut.continuations ≤ st2.continuations + 1) := by
  refine ⟨?_, ?_, ?_⟩
  · intro hpos
    simp only [punctuationBlock, h1, h2]
    rw [if_pos h3, if_pos (by simpa using hpos)]
    rw [h4]
  · intro hnonpos
    simp only [punctuationBlock, h1, h2]
    rw [if_pos h3, if_neg (by omega)]
  · intro rmsg2 st2 out stOut h
    simp only [punctuationBlock] at h
    split at h
    · exact absurd h (by simp)
    · split at h
      · exact absurd h (by simp)
      · split at h
        · split at h
          · split at h
            · exact absurd h (by simp)
            · simp only [Except.ok.injEq, Prod.mk.injEq] at h
              obtain ⟨-, hst⟩ := h
              subst hst
              simp
          · simp only [Except.ok.injEq, Prod.mk.injEq] at h
            obtain ⟨-, hst⟩ := h
            subst hst
            simp
        · simp only [Except.ok.injEq, Prod.mk.injEq] at h
          obtain ⟨-, hst⟩ := h
          subst hst
          simp

/-- Environment for the continuation witness: empty transcript, budget 100,
reserve 0, continuation oracle always answering with text. -/
def contBotW : Chatbot := ⟨[], [], 100, 0, false⟩

def contEnvW : GenEnv :=
  { tok := charTokenizer, functions_callable := [],
    oracle := fun _ => ⟨some " four.", none⟩, error_callback_attr := none }

def contStW : GenState := ⟨contBotW, 0, 0, []⟩

def contRmsgW : RespMessage := ⟨some "The answer is", none⟩

/-- Witness for C8: the reply `"The answer is"` has no terminal
punctuation, the budget is positive, and exactly one continuation is
concatenated. -/
theorem continuation_iff_available_positive_witness :
    punctuationBlock contEnvW contRmsgW contStW
      = .ok ("The answer is" ++ " four.",
          { contStW with
            bot := (update_conversation_history contEnvW.tok contStW.bot
              (some "The answer is") "assistant" none).bot,
            idx := contStW.idx + 1,
            continuations := contStW.continuations + 1 }) :=
  (continuation_iff_available_positive contEnvW contRmsgW contStW
    "The answer is" " four." 's' rfl (by decide) (by decide) rfl).1 (by decide)

/-- State and environment reproducing a handler failure: the registry binds
`lookup` to a handler that raises, the remote model requests `lookup`, and
the object was built by `__init__` (so the `error_callback` attribute is
absent: `initErrorCallbackAttr`). -/
def failBot : Chatbot := ⟨[], [], 100, 5, false⟩

def failEnv : GenEnv :=
  { tok := charTokenizer,
    functions_callable := [("lookup", fun _ => .error "boom")],
    oracle := fun _ => ⟨none, some ⟨"lookup", "x"⟩⟩,
    error_callback_attr := initErrorCallbackAttr }

def failSt : GenState := ⟨failBot, 0, 0, []⟩

/-- C3. `__init__` never assigns `self.error_callback`, so when a
registered handler raises, the `except` block evaluates
`if self.error_callback` and raises `AttributeError` instead of recovering:
the exception propagates to the caller of `respond`, no rollback happens
and the error callback is never invoked. -/
theorem handler_failure_raises_attribute_error :
    respond failEnv 3 failSt "What is the weather"
      = .error (.attributeError "error_callback")
    ∧ "error_callback" ∉ initAssignedAttrs := by
  exact ⟨rfl, by decide⟩

/-- Unregistered function call whose reply carries no text content. -/
def unregEnvNull : GenEnv :=
  { tok := charTokenizer, functions_callable := [],
    oracle := fun _ => ⟨none, some ⟨"foo", "x"⟩⟩, error_callback_attr := none }

/-- Unregistered function call whose reply carries the text `"Hello."`. -/
def unregEnvText : GenEnv :=
  { tok := charTokenizer, functions_callable := [],
    oracle := fun _ => ⟨some "Hello.", some ⟨"foo", "x"⟩⟩, error_callback_attr := none }

def unregSt : GenState := ⟨⟨[], [], 100, 5, false⟩, 0, 0, []⟩

/-- C5. An unregistered function name only falls through to the text path:
with accompanying text the raw text is surfaced, but with a missing/null
`content` the fall-through evaluates `reply[-1]` on `None` and raises
`TypeError` — the controller does not tolerate a null `content` on
function-call replies. -/
theorem unregistered_function_null_content_raises :
    generate_response unregEnvNull 2 unregSt
      = .error (.typeError "NoneType is not subscriptable")
    ∧ generate_response unregEnvText 2 unregSt
      = .ok ("Hello.", ⟨⟨[], [], 100, 5, false⟩, 1, 0, []⟩) := by
  exact ⟨rfl, rfl⟩
